import Mathlib

/-!
Shallow embedding of the GST invoice generator (`src/app.py`).

The program is a single Streamlit script.  Its core logic, embedded here:
* the GSTIN format check `re.match(r'\d{2}[A-Z]{5}\d{4}[A-Z]{1}\d{1}[Z]{1}[A-Z0-9]{1}', s)`
  (line 67) — a fixed-width positional pattern of 15 character classes,
  anchored at the start of the string only;
* the OCR field extraction (lines 41–42): `re.search` for the same GSTIN
  pattern, and `re.search(r'(?:total|amount|payable)[^\d]*(\d+\.?\d*)', text, re.IGNORECASE)`;
* the generate-button branch (lines 64–126): required-field check
  (Python truthiness of the four strings), GSTIN format check, then the
  FPDF rendering sequence, modelled as the ordered list of styled text
  lines the code emits via `pdf.cell`.

Modelling conventions: `\d` and `[A-Z]` are modelled as ASCII classes
(`Char.isDigit`, `Char.isUpper`); `re.IGNORECASE` as ASCII `Char.toLower`.
Python `float` values appearing in the claims are exactly representable, so
amounts are modelled as `ℚ`.  The two `datetime.now()` calls inside the
rendering block are modelled by one explicit clock parameter of type `Date`.
`pdf.ln` spacers and cell alignment are layout details carrying no text and
are not modelled.
-/

namespace GSTApp

/-- A calendar date, the value `datetime.now()` delivers to `strftime`. -/
structure Date where
  year : Nat
  month : Nat
  day : Nat
deriving DecidableEq

/-- Zero-pad a numeral to two characters, as `strftime` does for `%d`/`%m`. -/
def pad2 (n : Nat) : String :=
  if n < 10 then "0" ++ toString n else toString n

/-- `strftime('%d-%m-%Y')` (line 82). -/
def fmtDMY (t : Date) : String :=
  pad2 t.day ++ "-" ++ pad2 t.month ++ "-" ++ toString t.year

/-- `strftime('%Y%m%d')` (line 83). -/
def fmtYMD8 (t : Date) : String :=
  toString t.year ++ pad2 t.month ++ pad2 t.day

/-- The fixed-width GSTIN pattern `\d{2}[A-Z]{5}\d{4}[A-Z]{1}\d{1}[Z]{1}[A-Z0-9]{1}`
applied at the start of a character list: the list must have exactly 15
characters and each position must be in its class (positions 0–1 digits,
2–6 uppercase, 7–10 digits, 11 uppercase, 12 digit, 13 the literal `Z`,
14 uppercase or digit). -/
def matchGSTIN15 (cs : List Char) : Bool :=
  cs.length == 15 &&
  ((cs.getD 0 ' ').isDigit && (cs.getD 1 ' ').isDigit &&
   (cs.getD 2 ' ').isUpper && (cs.getD 3 ' ').isUpper && (cs.getD 4 ' ').isUpper &&
   (cs.getD 5 ' ').isUpper && (cs.getD 6 ' ').isUpper &&
   (cs.getD 7 ' ').isDigit && (cs.getD 8 ' ').isDigit && (cs.getD 9 ' ').isDigit &&
   (cs.getD 10 ' ').isDigit &&
   (cs.getD 11 ' ').isUpper && (cs.getD 12 ' ').isDigit &&
   (cs.getD 13 ' ' == 'Z') &&
   ((cs.getD 14 ' ').isUpper || (cs.getD 14 ' ').isDigit))

/-- `re.match(pattern, s)` with the fixed-width 15-character pattern: the
match is anchored at the start of `s` only, so it succeeds exactly when the
first 15 characters of `s` exist and fit the pattern — trailing characters
are not inspected (line 67 of `src/app.py`). -/
def validate (s : String) : Bool :=
  matchGSTIN15 (s.data.take 15)

/-- The character class the specification assigns to position `i` of the
identifier: 2 digits, 5 uppercase letters, 4 digits, 1 uppercase letter,
1 digit, the literal letter `Z`, 1 alphanumeric. -/
def specClassAt (i : Nat) (c : Char) : Bool :=
  if i < 2 then c.isDigit
  else if i < 7 then c.isUpper
  else if i < 11 then c.isDigit
  else if i = 11 then c.isUpper
  else if i = 12 then c.isDigit
  else if i = 13 then c == 'Z'
  else c.isUpper || c.isDigit

/-- The specification's reading of the validator (claim C1): the whole
string is exactly the 15-character positional pattern — no extra leading or
trailing characters. -/
def specExact15 (s : String) : Bool :=
  s.data.length == 15 && (List.range 15).all (fun i => specClassAt i (s.data.getD i ' '))

theorem matchGSTIN15_eq_spec (l : List Char) :
    matchGSTIN15 l = specExact15 (String.mk l) := by
  have hr : List.range 15 = [0, 1, 2, 3, 4, 5, 6, 7, 8, 9, 10, 11, 12, 13, 14] := rfl
  apply Bool.eq_iff_iff.mpr
  simp only [matchGSTIN15, specExact15, hr, List.all_cons, List.all_nil, specClassAt,
    Bool.and_eq_true, beq_iff_eq, Bool.and_true]
  norm_num
  tauto

theorem matchGSTIN15_length {l : List Char} (h : matchGSTIN15 l = true) :
    l.length = 15 := by
  simp only [matchGSTIN15, Bool.and_eq_true, beq_iff_eq] at h
  exact h.1

/-- `re.search` for the GSTIN pattern (line 41): scan left to right; at each
position, the fixed-width pattern matches exactly when the 15-character
window starting there fits `matchGSTIN15`; the first matching window is
returned (`gst_match.group(0)`). -/
def findGSTIN : List Char → Option (List Char)
  | [] => none
  | c :: cs =>
      if matchGSTIN15 ((c :: cs).take 15) then some ((c :: cs).take 15)
      else findGSTIN cs

/-- Case-insensitive literal match of the keyword `k` at the head of `cs`
(`re.IGNORECASE`, modelled with ASCII `Char.toLower`). -/
def matchKW : List Char → List Char → Bool
  | [], _ => true
  | _ :: _, [] => false
  | k :: ks, c :: cs => (c.toLower == k) && matchKW ks cs

/-- The alternation `(?:total|amount|payable)` tried at the current
position, in the regex's order; returns the matched keyword's length. -/
def kwLenAt (cs : List Char) : Option Nat :=
  if matchKW "total".data cs then some 5
  else if matchKW "amount".data cs then some 6
  else if matchKW "payable".data cs then some 7
  else none

/-- The capture group `(\d+\.?\d*)` applied at a position whose head is a
digit: the maximal run of digits, then an optional decimal point, then a
maximal run of digits. -/
def captureNum (cs : List Char) : List Char :=
  let ip := cs.takeWhile Char.isDigit
  match cs.drop ip.length with
  | '.' :: rest => ip ++ '.' :: rest.takeWhile Char.isDigit
  | _ => ip

/-- `re.search(r'(?:total|amount|payable)[^\d]*(\d+\.?\d*)', text, re.IGNORECASE)`
(line 42), returning the text of capture group 1.  At each scan position:
if a keyword matches there, `[^\d]*` greedily skips the non-digits after
it; `\d+` then needs a digit, so the attempt succeeds exactly when a digit
exists in the remainder, and the numeral starts at the first such digit;
otherwise the scan advances one position. -/
def findTotal : List Char → Option (List Char)
  | [] => none
  | c :: cs =>
      match kwLenAt (c :: cs) with
      | some n =>
          let after := (c :: cs).drop n
          let ds := after.dropWhile (fun ch => !ch.isDigit)
          if ds.isEmpty then findTotal cs else some (captureNum ds)
      | none => findTotal cs

/-- Decimal digit run to a natural number. -/
def digitsToNat (cs : List Char) : Nat :=
  cs.foldl (fun a c => 10 * a + (c.toNat - 48)) 0

/-- Python `float(lit)` on a literal of shape `\d+(\.\d*)?` — the values the
claims mention are exactly representable, so the parse is modelled in `ℚ`:
integer part plus fractional part over the matching power of ten. -/
def parseDec (cs : List Char) : ℚ :=
  let ip := cs.takeWhile Char.isDigit
  match cs.drop ip.length with
  | '.' :: fp => mkRat (digitsToNat ip * 10 ^ fp.length + digitsToNat fp) (10 ^ fp.length)
  | _ => mkRat (digitsToNat ip) 1

/-- The intermediate result of the OCR extraction stage (lines 41–42). -/
structure ExtractionResult where
  candidateTaxId : Option String
  candidateTotal : Option ℚ
deriving DecidableEq

/-- The Field Extractor: `gst_match` and `total_match` over the OCR text. -/
def extract (text : String) : ExtractionResult :=
  { candidateTaxId := (findGSTIN text.data).map String.mk
    candidateTotal := (findTotal text.data).map parseDec }

/-- The raw fields the generate button reads from `invoice_data`
(dictionary keys in source order). -/
structure RawInput where
  seller_name : String
  seller_gst : String
  buyer_name : String
  buyer_gst : String
  total_amount : ℚ
  items : String
deriving DecidableEq

/-- One text line the renderer emits via `pdf.cell`: the active font style
(bold or regular), the font size, and the cell text.  (`pdf.ln` spacers and
cell alignment carry no text and are not modelled.) -/
structure PLine where
  bold : Bool
  size : Nat
  text : String
deriving DecidableEq

/-- Python `f"{x:.2f}"` for the total, modelled as two-decimal fixed point
(amounts in the claims are exact multiples of 1/100, where this agrees with
the float formatting). -/
def fmtAmount (q : ℚ) : String :=
  let cents : Int := (q * mkRat 100 1 + mkRat 1 2).floor
  let sign := if cents < 0 then "-" else ""
  let a := cents.natAbs
  sign ++ toString (a / 100) ++ "." ++ pad2 (a % 100)

/-- `f"Invoice No: GST-{datetime.now().strftime('%Y%m%d')}-001"` without its
fixed lead-in: the derived invoice number (line 83). -/
def invoiceNumber (t : Date) : String :=
  "GST-" ++ fmtYMD8 t ++ "-001"

/-- Header block (lines 77–79). -/
def titleBlock : List PLine :=
  [⟨true, 16, "TAX INVOICE"⟩]

/-- Metadata block (lines 81–83); `now` is the clock value the two
`datetime.now()` calls read. -/
def metaBlock (now : Date) : List PLine :=
  [⟨false, 10, "Invoice Date: " ++ fmtDMY now⟩,
   ⟨false, 10, "Invoice No: " ++ invoiceNumber now⟩]

/-- Seller block (lines 87–91). -/
def sellerBlock (d : RawInput) : List PLine :=
  [⟨true, 12, "Seller Details"⟩,
   ⟨false, 10, "Name: " ++ d.seller_name⟩,
   ⟨false, 10, "GSTIN: " ++ d.seller_gst⟩]

/-- Buyer block (lines 95–100): the GSTIN line only when `buyer_gst` is
truthy, i.e. non-empty. -/
def buyerBlock (d : RawInput) : List PLine :=
  [⟨true, 12, "Buyer Details"⟩, ⟨false, 10, "Name: " ++ d.buyer_name⟩]
    ++ (if d.buyer_gst = "" then [] else [⟨false, 10, "GSTIN: " ++ d.buyer_gst⟩])

/-- The item lines the loop at lines 108–111 emits: split `items` on
newline characters; every line whose strip is truthy (non-empty) yields one
bulleted cell with the stripped text. -/
def itemLines (items : String) : List String :=
  (items.split (fun c => c = '\n')).filterMap
    (fun item => if item.trim = "" then none else some ("• " ++ item.trim))

/-- Items block (lines 104–111). -/
def itemsBlock (items : String) : List PLine :=
  ⟨true, 12, "Items"⟩ :: (itemLines items).map (fun s => ⟨false, 10, s⟩)

/-- Total block (lines 115–116). -/
def totalBlock (d : RawInput) : List PLine :=
  [⟨true, 12, "Total Amount: ₹" ++ fmtAmount d.total_amount⟩]

/-- Compliance footer (lines 120–122). -/
def footerBlock : List PLine :=
  [⟨false, 8, "This is a computer-generated invoice. No signature required as per CGST Rule 46."⟩,
   ⟨false, 8, "GSTIN verified as per Govt of India format."⟩]

/-- The ordered sequence of styled text lines the PDF generation block
(lines 72–122) emits, with the clock reading `now` passed explicitly. -/
def renderPDF (d : RawInput) (now : Date) : List PLine :=
  titleBlock ++ metaBlock now ++ sellerBlock d ++ buyerBlock d
    ++ itemsBlock d.items ++ totalBlock d ++ footerBlock

/-- The two validation failures the generate branch can report
(lines 65–68).  There is no amount-related error in the code. -/
inductive GenError where
  | requiredFieldMissing
  | invalidTaxId
deriving DecidableEq

/-- The generate-button branch (lines 64–126): required-field check by
Python truthiness (`not all([...])` — a string is falsy exactly when it is
empty), then the GSTIN `re.match` check, then the PDF is produced. -/
def generate (d : RawInput) (now : Date) : Except GenError (List PLine) :=
  if d.seller_name = "" ∨ d.seller_gst = "" ∨ d.buyer_name = "" ∨ d.items = "" then
    Except.error GenError.requiredFieldMissing
  else if validate d.seller_gst = false then
    Except.error GenError.invalidTaxId
  else
    Except.ok (renderPDF d now)

/-- A well-formed manual-entry input, used as concrete test data. -/
def sampleInput : RawInput :=
  { seller_name := "Shop Name"
    seller_gst := "27ABCDE1234F5Z6"
    buyer_name := "Customer"
    buyer_gst := ""
    total_amount := mkRat 1000 1
    items := "Item 1: 500\nItem 2: 300" }

/-- `sampleInput` with a zero total (claim C3's failing situation). -/
def zeroTotalInput : RawInput :=
  { sampleInput with total_amount := mkRat 0 1 }

/-- `sampleInput` with a whitespace-only buyer name (claim C5's failing
situation). -/
def blankBuyerInput : RawInput :=
  { sampleInput with buyer_name := " " }

/-- `findGSTIN` only ever returns a window that itself matches the full
fixed-width pattern. -/
theorem findGSTIN_sound : ∀ {cs m : List Char}, findGSTIN cs = some m → matchGSTIN15 m = true := by
  intro cs
  induction cs with
  | nil => intro m h; simp [findGSTIN] at h
  | cons c cs ih =>
    intro m h
    simp only [findGSTIN] at h
    split at h
    · rename_i hcond
      injection h with h
      exact h ▸ hcond
    · exact ih h

/-- C1 counterexample: the validator is start-anchored only, so a
16-character string whose first 15 characters fit the pattern is accepted,
although it is not exactly the 15-character pattern. -/
theorem validate_accepts_16_chars :
    validate "27ABCDE1234F5Z6X" = true ∧ specExact15 "27ABCDE1234F5Z6X" = false := by decide

/-- C1 (amended): `validate` returns true exactly for strings of length at
least 15 whose first 15 characters are the positional grammar — extra
trailing characters are accepted (extra leading characters are not). -/
theorem validate_iff_first15 (s : String) :
    validate s = true ↔
      (15 ≤ s.data.length ∧ specExact15 (String.mk (s.data.take 15)) = true) := by
  constructor
  · intro h
    have h' : matchGSTIN15 (s.data.take 15) = true := h
    have hlen := matchGSTIN15_length h'
    constructor
    · simp only [List.length_take] at hlen; omega
    · rw [← matchGSTIN15_eq_spec]; exact h'
  · rintro ⟨hlen, h⟩
    show matchGSTIN15 (s.data.take 15) = true
    rw [matchGSTIN15_eq_spec]; exact h

/-- C2 counterexample: the spec's example identifier `27AABCCDDDEE1Z1` is
rejected by the code — positions 8–11 must be four digits, but the example
has the letters `DDDE` there. -/
theorem validate_rejects_spec_example : validate "27AABCCDDDEE1Z1" ≠ true := by decide

/-- C2 (amended): `validate "27AABCCDDDEE1Z1"` returns false (the example
does not fit the grammar); the 14-character and empty strings are also
rejected, and a grammar-conforming 15-character string is accepted. -/
theorem validate_example_behavior :
    validate "27AABCCDDDEE1Z1" = false ∧ validate "27AABCCDDDEE1Z" = false ∧
    validate "" = false ∧ validate "27ABCDE1234F5Z6" = true := by decide

/-- C3 counterexample: with all required fields filled and a valid GSTIN
but `total_amount = 0`, generation succeeds and a document is produced —
there is no `InvalidAmount` error in the code. -/
theorem generate_succeeds_zero_total :
    zeroTotalInput.total_amount = mkRat 0 1 ∧
    generate zeroTotalInput ⟨2024, 1, 15⟩ = Except.ok (renderPDF zeroTotalInput ⟨2024, 1, 15⟩) :=
  ⟨rfl, rfl⟩

/-- C3 (amended): the generate branch never checks the amount — whenever
the four required fields are non-empty and the GSTIN validates, generation
succeeds regardless of `total_amount` (zero and negative included). -/
theorem generate_no_amount_check (d : RawInput) (now : Date)
    (h1 : d.seller_name ≠ "") (h2 : d.seller_gst ≠ "") (h3 : d.buyer_name ≠ "")
    (h4 : d.items ≠ "") (h5 : validate d.seller_gst = true) :
    generate d now = Except.ok (renderPDF d now) := by
  simp [generate, h1, h2, h3, h4, h5]

/-- Witness for C3 (amended) at the concrete zero-total input. -/
theorem generate_no_amount_check_witness :
    generate zeroTotalInput ⟨2024, 1, 15⟩ = Except.ok (renderPDF zeroTotalInput ⟨2024, 1, 15⟩) :=
  generate_no_amount_check zeroTotalInput ⟨2024, 1, 15⟩
    (by decide) (by decide) (by decide) (by decide) (by decide)

/-- C4 counterexample: on the spec's test vector the extracted tax-id
candidate is absent, not `27AABCCDDDEE1Z1` — that substring does not match
the GSTIN pattern (letters where four digits are required). -/
theorem extract_vector_taxid_none :
    (extract "GSTIN: 27AABCCDDDEE1Z1 Total: 499.50").candidateTaxId = none := by decide

/-- C4 (amended): on the spec's vector the tax-id candidate is absent while
the total 499.50 is extracted; with a grammar-conforming identifier in the
text, that identifier is extracted; `extract "no identifiers here"` yields
both candidates absent.  (`extract` is a total function by construction.) -/
theorem extract_vectors :
    (extract "GSTIN: 27AABCCDDDEE1Z1 Total: 499.50").candidateTaxId = none ∧
    (extract "GSTIN: 27AABCCDDDEE1Z1 Total: 499.50").candidateTotal = some (mkRat 999 2) ∧
    (extract "GSTIN: 27ABCDE1234F5Z6 Total: 499.50").candidateTaxId = some "27ABCDE1234F5Z6" ∧
    (extract "no identifiers here").candidateTaxId = none ∧
    (extract "no identifiers here").candidateTotal = none := by decide

/-- C5 counterexample: a whitespace-only buyer name is truthy in Python, so
the required-field check passes and generation succeeds instead of failing
with `RequiredFieldMissing`. -/
theorem generate_accepts_blank_buyer :
    blankBuyerInput.buyer_name = " " ∧
    blankBuyerInput.buyer_name.data.all Char.isWhitespace = true ∧
    generate blankBuyerInput ⟨2024, 1, 15⟩ = Except.ok (renderPDF blankBuyerInput ⟨2024, 1, 15⟩) :=
  ⟨rfl, by decide, rfl⟩

/-- C5 (amended): generation fails with `RequiredFieldMissing` exactly when
one of the four required fields is the empty string — whitespace-only
values pass the check. -/
theorem generate_required_iff_empty (d : RawInput) (now : Date) :
    generate d now = Except.error GenError.requiredFieldMissing ↔
      (d.seller_name = "" ∨ d.seller_gst = "" ∨ d.buyer_name = "" ∨ d.items = "") := by
  by_cases hreq : d.seller_name = "" ∨ d.seller_gst = "" ∨ d.buyer_name = "" ∨ d.items = ""
  · simp [generate, hreq]
  · by_cases hv : validate d.seller_gst = false <;> simp [generate, hreq, hv]

/-- C6: the extraction grammar agrees with the validation grammar — any
present extracted tax-id candidate passes the validator. -/
theorem extracted_taxid_validates (text g : String)
    (h : (extract text).candidateTaxId = some g) : validate g = true := by
  simp only [extract] at h
  rw [Option.map_eq_some'] at h
  obtain ⟨l, hfind, rfl⟩ := h
  have hm := findGSTIN_sound hfind
  have hlen := matchGSTIN15_length hm
  show matchGSTIN15 ((String.mk l).data.take 15) = true
  rw [show (String.mk l).data = l from rfl, List.take_of_length_le (by omega)]
  exact hm

/-- Witness for C6 at a concrete OCR text containing a conforming GSTIN. -/
theorem extracted_taxid_validates_witness : validate "27ABCDE1234F5Z6" = true :=
  extracted_taxid_validates "GSTIN: 27ABCDE1234F5Z6 Total: 499.50" "27ABCDE1234F5Z6" (by decide)

/-- Splitting, trimming and bullet-prefixing commutes with first mapping
trim and filtering the blanks. -/
theorem filterMap_bullets (l : List String) :
    l.filterMap (fun item => if item.trim = "" then none else some ("• " ++ item.trim))
      = ((l.map String.trim).filter (fun s => !(s == ""))).map (fun s => "• " ++ s) := by
  induction l with
  | nil => rfl
  | cons a l ih =>
    by_cases ha : a.trim = "" <;>
      simp [List.filterMap_cons, List.filter_cons, ha, ih]

/-- C7: the items block of the rendered document carries exactly the
non-blank lines of `items` split on line breaks, trimmed, bulleted, in
their original order — nothing duplicated, reordered, or added. -/
theorem render_items_roundtrip (d : RawInput) (now : Date) :
    renderPDF d now =
      titleBlock ++ metaBlock now ++ sellerBlock d ++ buyerBlock d
        ++ (PLine.mk true 12 "Items"
              :: (((d.items.split (fun c => c = '\n')).map String.trim).filter
                    (fun s => !(s == ""))).map (fun s => PLine.mk false 10 ("• " ++ s)))
        ++ totalBlock d ++ footerBlock := by
  unfold renderPDF itemsBlock itemLines
  rw [filterMap_bullets]
  simp [List.map_map, Function.comp]

/-- C8: in every rendered document, line 1 is the invoice date formatted
`DD-MM-YYYY` from the assembly-time clock and line 2 is the invoice number
`GST-` ++ the date as `YYYYMMDD` ++ `-001`. -/
theorem render_meta_lines (d : RawInput) (now : Date) :
    (renderPDF d now)[1]? = some ⟨false, 10, "Invoice Date: " ++ fmtDMY now⟩ ∧
    (renderPDF d now)[2]? = some ⟨false, 10, "Invoice No: " ++ invoiceNumber now⟩ ∧
    invoiceNumber now = "GST-" ++ fmtYMD8 now ++ "-001" :=
  ⟨rfl, rfl, rfl⟩

/-- C9 counterexample: the renderer reads the clock itself (the
`datetime.now()` calls sit inside the PDF generation block), so rendering
the identical invoice data at two different dates yields different layout
content. -/
theorem render_reads_clock :
    renderPDF sampleInput ⟨2024, 1, 1⟩ ≠ renderPDF sampleInput ⟨2024, 1, 2⟩ := by decide

/-- C9 (amended): the renderer is a pure function of the invoice fields
and the clock reading — two render calls with the same fields and the same
formatted clock date produce identical layout content. -/
theorem render_deterministic_given_clock (d : RawInput) (n1 n2 : Date)
    (h1 : fmtDMY n1 = fmtDMY n2) (h2 : fmtYMD8 n1 = fmtYMD8 n2) :
    renderPDF d n1 = renderPDF d n2 := by
  simp [renderPDF, metaBlock, invoiceNumber, h1, h2]

/-- Witness for C9 (amended) at a concrete invoice and clock reading. -/
theorem render_deterministic_given_clock_witness :
    renderPDF sampleInput ⟨2024, 1, 1⟩ = renderPDF sampleInput ⟨2024, 1, 1⟩ :=
  render_deterministic_given_clock sampleInput ⟨2024, 1, 1⟩ ⟨2024, 1, 1⟩ rfl rfl

/-- C10: the total extraction skips every non-digit after the keyword,
including a decimal point, so `total: .50` yields the candidate 50 — not
one half. -/
theorem extract_total_skips_point :
    (extract "total: .50").candidateTotal = some (mkRat 50 1) ∧
    (extract "total: .50").candidateTotal ≠ some (mkRat 1 2) := by decide

end GSTApp
